import Mathlib

/-!
Verification of the aiforge model-serving gateway: a shallow embedding of the
model resolution and invocation engine (manifest-driven loading, custom-script
heuristics, built-in framework adapters, output normalization) together with
theorems settling the frozen claims about it.

Two variants of the loader exist in the repository and are embedded in two
namespaces:
* `Tmp` — the manifest-aware loader of
  `apps/app/tmp/cmi4r60k10002h0e7ajeu2y70/app/utils/model_loader.py` and its
  schema `app/schemas/model_config.py`;
* `Api` — the loader and HTTP route of `apps/api/app/utils/model_loader.py`
  and `apps/api/app/routers/predict.py`.

Filesystem access, dynamic module import, and the external ML runtimes
(torch, tensorflow, onnxruntime, the unpickled model object) are modelled as
an explicit environment of behaviors, since the Python code treats them as
opaque callables; everything the repository itself computes (tier dispatch,
candidate orders, arity dispatch, config handling, input coercion, output
normalization, error wrapping) is embedded structurally.
-/

/-- Python exception classes, as far as the loader's `except` clauses
distinguish them. `except TypeError` catches exactly `typeError`;
`except Exception` catches every constructor. -/
inductive Exn where
  | typeError (msg : String)
  | valueError (msg : String)
  | jsonError (msg : String)
  | fileNotFound (msg : String)
  | attributeError (msg : String)
  | importError (msg : String)
  | keyError (msg : String)
  deriving DecidableEq, Repr

/-- The message carried by an exception (`str(e)` in the Python sources). -/
def Exn.msg : Exn → String
  | .typeError m => m
  | .valueError m => m
  | .jsonError m => m
  | .fileNotFound m => m
  | .attributeError m => m
  | .importError m => m
  | .keyError m => m

/-- `True` exactly for `TypeError`, mirroring `except TypeError`. -/
def Exn.isTypeError : Exn → Bool
  | .typeError _ => true
  | _ => false

/-- `s.lower()` (character-wise ASCII lowercasing, as applied to file
suffixes by `_detect_framework`). -/
def lowerStr (s : String) : String := ⟨s.data.map Char.toLower⟩

/-- `s.endswith(suf)`. -/
def strEndsWith (s suf : String) : Bool := suf.data.isSuffixOf s.data

namespace Tmp

/-- Python objects flowing through the tmp-app loader: `None`, strings
(paths), and opaque values built by user functions. `tag` lets concrete test
modules return values that record which function was called with which
arguments. -/
inductive Obj where
  | pyNone
  | str (s : String)
  | tag (t : String) (args : List Obj)

/-- `x is None` in Python. -/
def Obj.isNone : Obj → Bool
  | .pyNone => true
  | _ => false

/-- A module-level Python function as the loader sees it: the result of
`inspect.signature` (the number of parameters, or the exception it raises),
its behavior under a positional call, and its behavior under a keyword call.
Calls either raise an exception or return an object (possibly `None`). -/
structure PyFn where
  sig : Except Exn Nat
  callPos : List Obj → Except Exn Obj
  callKw : List (String × Obj) → Except Exn Obj

/-- A dynamically imported entry-point module: an opaque namespace of
callables. `m name = some fn` models `hasattr(m, name)` / `getattr`. -/
def PyModule := String → Option PyFn

/-- The `load` / `predict` sub-dictionaries of a raw `model_config.json`
document (`.get('name')`, `.get('function')`, `.get('args', [])`). -/
structure FnSpec where
  name : Option String
  function_ : Option String
  args : List String

/-- A parsed `model_config.json` document, field for field. `none` models an
absent key. -/
structure ConfigDoc where
  name : Option String
  version : Option String
  framework : Option String
  entry_point : Option String
  entry_point_type : Option String
  class_name : Option String
  load : Option FnSpec
  predict : Option FnSpec
  model_file : Option String
  load_function : Option String

/-- A validated `FunctionConfig` (pydantic): `name` is required, `args`
defaults to the empty list. -/
structure FunctionConfig where
  name : String
  args : List String
  deriving DecidableEq, Repr

/-- A validated `ModelConfig` (pydantic): all required fields present. -/
structure ModelConfig where
  name : String
  version : String
  framework : String
  entry_point : String
  entry_point_type : String
  class_name : Option String
  load : FunctionConfig
  predict : FunctionConfig
  model_file : String
  deriving DecidableEq, Repr

/-- The closed argument vocabulary of `FunctionConfig.validate_args`. -/
def validArgs : List String := ["model_path", "model_dir", "input_data", "model"]

/-- The `ValueError` message raised by `FunctionConfig.validate_args` for an
out-of-vocabulary token, naming the offending token. -/
def invalidArgMsg (arg : String) : String :=
  "Invalid argument " ++ arg ++ ". Must be one of: model_path, model_dir, input_data, model"

/-- `FunctionConfig.validate_args`: every token must belong to `validArgs`;
the first offending token raises a `ValueError` naming it. -/
def validate_args : List String → Except Exn Unit
  | [] => .ok ()
  | a :: rest =>
    if a ∈ validArgs then validate_args rest
    else .error (.valueError (invalidArgMsg a))

/-- The allowed values of the `framework` literal field. -/
def frameworkLiterals : List String := ["sklearn", "pytorch", "tensorflow", "onnx", "custom"]

/-- Validation of one `FunctionConfig` sub-document: `name` required,
`args` validated against the closed vocabulary. -/
def validateFnSpec (field : String) (s : Option FnSpec) : Except Exn FunctionConfig :=
  match s with
  | none => .error (.valueError ("field required: " ++ field))
  | some spec =>
    match spec.name with
    | none => .error (.valueError ("field required: " ++ field ++ ".name"))
    | some n =>
      match validate_args spec.args with
      | .error e => .error e
      | .ok _ => .ok ⟨n, spec.args⟩

/-- `ModelConfig(**data)` (pydantic validation of the raw document):
required fields, the `framework` literal, the `.py` suffix rule for
`entry_point`, the closed argument vocabulary for `load.args` and
`predict.args`, and the `class_name`-required-for-class rule. -/
def validateConfigDoc (doc : ConfigDoc) : Except Exn ModelConfig :=
  match doc.name with
  | none => .error (.valueError "field required: name")
  | some nm =>
  match doc.version with
  | none => .error (.valueError "field required: version")
  | some ver =>
  match doc.framework with
  | none => .error (.valueError "field required: framework")
  | some fw =>
  if fw ∉ frameworkLiterals then .error (.valueError ("unexpected value: " ++ fw)) else
  match doc.entry_point with
  | none => .error (.valueError "field required: entry_point")
  | some ep =>
  if ¬ strEndsWith ep ".py" then .error (.valueError "entry_point must be a Python file (.py)") else
  let ept := doc.entry_point_type.getD "module"
  if ept ≠ "module" ∧ ept ≠ "class" then .error (.valueError ("unexpected value: " ++ ept)) else
  match validateFnSpec "load" doc.load with
  | .error e => .error e
  | .ok lc =>
  match validateFnSpec "predict" doc.predict with
  | .error e => .error e
  | .ok pc =>
  match doc.model_file with
  | none => .error (.valueError "field required: model_file")
  | some mf =>
  if ept = "class" ∧ doc.class_name.isNone then
    .error (.valueError "class_name is required when entry_point_type is class")
  else
    .ok ⟨nm, ver, fw, ep, ept, doc.class_name, lc, pc, mf⟩

/-- `ModelConfigValidator.validate_file`: validate the parsed document,
wrapping any validation failure into
`ValueError("Invalid model_config.json: ...")`. (JSON parsing itself is done
by the caller's environment; a parse failure never reaches this point in
`_load_from_config` because the surrounding `json.load` fails first.) -/
def validate_file (doc : ConfigDoc) : Except Exn ModelConfig :=
  match validateConfigDoc doc with
  | .error e => .error (.valueError ("Invalid model_config.json: " ++ e.msg))
  | .ok c => .ok c

/-- What `self.model_config` holds: nothing, a validated pydantic
`ModelConfig` object (schema importable), or the raw parsed dict (schema
not importable). Only the raw-dict form satisfies
`isinstance(self.model_config, dict)`. -/
inductive ConfigStore where
  | none
  | validated (c : ModelConfig)
  | rawDict (c : ConfigDoc)

/-- The mutable state of the tmp-app `ModelLoader`. `model = Obj.pyNone`
models `self.model is None`. -/
structure LoaderState where
  model : Obj
  framework : Option String
  model_path : Option String
  custom_inference : Option PyModule
  use_custom_inference : Bool
  model_config : ConfigStore

/-- A freshly constructed `ModelLoader()`. -/
def initialState : LoaderState :=
  ⟨.pyNone, Option.none, Option.none, Option.none, false, .none⟩

/-- The loader's environment: filesystem observations, `json.load` of a file,
dynamic import of a script, availability of the pydantic schema module, and
the bodies of the four built-in framework loaders and predictors (which call
the external ML runtimes and are opaque to the repository's own logic). -/
structure Env where
  pathExists : String → Bool
  isDir : String → Bool
  suffix : String → String
  parseJson : String → Except Exn ConfigDoc
  importAt : String → Except Exn PyModule
  validatorAvailable : Bool
  adapterLoad : String → String → Except Exn Obj
  adapterPredict : String → Obj → Obj → Except Exn Obj

/-- `os.path.dirname` restricted to forward-slash paths. -/
def dirname (p : String) : String :=
  String.intercalate "/" ((p.splitOn "/").dropLast)

/-- `model_dir or os.path.dirname(model_path)` — Python truthiness: an absent
or empty `model_dir` falls back to the dirname. -/
def resolveDir (model_dir : Option String) (model_path : String) : String :=
  match model_dir with
  | Option.none => dirname model_path
  | some d => if d = "" then dirname model_path else d

/-- Python truthiness of an optional string argument (`None` and `""` are
falsy). -/
def truthy : Option String → Bool
  | Option.none => false
  | some s => s ≠ ""

/-- `a.get('name') or a.get('function')` — Python `or` on optional strings,
where the empty string is falsy. -/
def pyOr (a b : Option String) : Option String :=
  match a with
  | Option.none => b
  | some s => if s = "" then b else some s

/-- The required top-level keys checked by `_load_from_config` when the
pydantic schema is unavailable. -/
def requiredFieldMissing (doc : ConfigDoc) : Bool :=
  doc.entry_point.isNone || doc.load.isNone || doc.predict.isNone || doc.model_file.isNone

/-- The kwargs built from `load.args` by `_load_from_config`: `model_path`
and `model_dir` are bound, any other token is skipped with a warning. -/
def buildLoadKwargs (args : List String) (model_file_path model_dir : String) :
    List (String × Obj) :=
  args.foldl (fun acc a =>
    if a = "model_path" then acc ++ [("model_path", Obj.str model_file_path)]
    else if a = "model_dir" then acc ++ [("model_dir", Obj.str model_dir)]
    else acc) []

/-- The error-wrapping applied by the `try/except` around config parsing in
`_load_from_config`: `json.JSONDecodeError`, `FileNotFoundError` and every
other exception are all re-raised as `ValueError`s. -/
def wrapConfigParseErr : Exn → Exn
  | .jsonError m => .valueError ("Invalid JSON in model_config.json: " ++ m)
  | .fileNotFound _ => .valueError "model_config.json not found"
  | e => .valueError ("Invalid model_config.json: " ++ e.msg)

/-- The tail of `_load_from_config` after the config document has been parsed
and validated (entry-point import, load-function lookup, kwargs construction,
invocation, and installation of `self.model` / `self.framework`). -/
def load_from_config_tail (env : Env) (st : LoaderState) (doc : ConfigDoc)
    (model_dir : String) : LoaderState × Except Exn Obj :=
  match doc.entry_point with
  | Option.none => (st, .error (.keyError "entry_point"))
  | some ep =>
    let epPath := model_dir ++ "/" ++ ep
    if ¬ env.pathExists epPath then
      (st, .error (.fileNotFound ("Entry point file not found: " ++ ep)))
    else
      match env.importAt epPath with
      | .error e => (st, .error (.importError ("Failed to import " ++ ep ++ ": " ++ e.msg)))
      | .ok m =>
        let st := { st with custom_inference := some m, use_custom_inference := true }
        match doc.load with
        | Option.none => (st, .error (.keyError "load"))
        | some lc =>
          match pyOr lc.name lc.function_ with
          | Option.none => (st, .error (.typeError "attribute name must be string"))
          | some fname =>
            match m fname with
            | Option.none =>
              (st, .error (.attributeError ("Function " ++ fname ++ " not found in " ++ ep)))
            | some fn =>
              match doc.model_file with
              | Option.none => (st, .error (.keyError "model_file"))
              | some mf =>
                let kwargs := buildLoadKwargs lc.args (model_dir ++ "/" ++ mf) model_dir
                match fn.callKw kwargs with
                | .error e => (st, .error e)
                | .ok v =>
                  ({ st with model := v,
                             framework := some (doc.framework.getD "custom") }, .ok v)

/-- `_load_from_config`: parse `model_config.json`, validate it (with the
pydantic schema when importable, with the basic required-field check
otherwise), store `self.model_config`, then run the tail. Every failure is
raised; nothing falls through. -/
def load_from_config (env : Env) (st : LoaderState) (config_path model_dir : String) :
    LoaderState × Except Exn Obj :=
  match env.parseJson config_path with
  | .error e => (st, .error (wrapConfigParseErr e))
  | .ok doc =>
    if env.validatorAvailable then
      match validate_file doc with
      | .error e => (st, .error (.valueError ("Invalid model_config.json: " ++ e.msg)))
      | .ok cfg =>
        load_from_config_tail env { st with model_config := .validated cfg } doc model_dir
    else
      if requiredFieldMissing doc then
        (st, .error (.valueError "model_config.json missing required fields"))
      else
        load_from_config_tail env { st with model_config := .rawDict doc } doc model_dir

/-- The fixed candidate order of `_try_custom_load`. -/
def loadCandidates : List String := ["load_model", "load", "initialize", "init", "setup"]

/-- One candidate attempt inside `_try_custom_load`: inspect the arity and
call with 0, 1 or 2 positional arguments (0 parameters: none; 1: the model
path; 2: model path and model directory; more: the model path only). An
exception from `inspect.signature` or from the call surfaces as the
candidate's failure. -/
def tryLoadWith (fn : PyFn) (model_path model_dir : String) : Except Exn Obj :=
  match fn.sig with
  | .error e => .error e
  | .ok 0 => fn.callPos []
  | .ok 1 => fn.callPos [.str model_path]
  | .ok 2 => fn.callPos [.str model_path, .str model_dir]
  | .ok _ => fn.callPos [.str model_path]

/-- The candidate loop of `_try_custom_load`: skip absent names, catch a
failing candidate and try the next one, assign `self.model` on a successful
call and stop at the first non-`None` result. -/
def tryLoadGo (mod : PyModule) (model_path : String) (model_dir : Option String) :
    List String → LoaderState → LoaderState × Bool
  | [], st => (st, false)
  | name :: rest, st =>
    match mod name with
    | Option.none => tryLoadGo mod model_path model_dir rest st
    | some fn =>
      match tryLoadWith fn model_path (resolveDir model_dir model_path) with
      | .error _ => tryLoadGo mod model_path model_dir rest st
      | .ok v =>
        let st := { st with model := v }
        if v.isNone then tryLoadGo mod model_path model_dir rest st else (st, true)

/-- `_try_custom_load`: returns `False` immediately when no module is bound,
otherwise runs the candidate loop over `loadCandidates`. -/
def try_custom_load (st : LoaderState) (model_path : String) (model_dir : Option String) :
    LoaderState × Bool :=
  match st.custom_inference with
  | Option.none => (st, false)
  | some mod => tryLoadGo mod model_path model_dir loadCandidates st

/-- The conventional script filenames scanned by
`_try_auto_detect_custom_inference`. -/
def autoFiles : List String := ["inference.py", "predict.py", "model.py", "handler.py", "main.py"]

/-- Step 1 of `_try_auto_detect_custom_inference`: the `model_config.json`
shortcut (entry point defaulting to `inference.py`, load function name from
the `load_function` key defaulting to `load_model`, single-argument call).
Any exception is caught and control proceeds to the filename scan with
whatever state mutations already happened. -/
def autoDetectConfigStep (env : Env) (st : LoaderState) (model_dir model_path : String) :
    (LoaderState × Bool) ⊕ LoaderState :=
  if env.pathExists (model_dir ++ "/model_config.json") then
    match env.parseJson (model_dir ++ "/model_config.json") with
    | .error _ => .inr st
    | .ok doc =>
      let ep := doc.entry_point.getD "inference.py"
      let ipath := model_dir ++ "/" ++ ep
      if env.pathExists ipath then
        match env.importAt ipath with
        | .error _ => .inr st
        | .ok m =>
          let st := { st with custom_inference := some m, use_custom_inference := true }
          match m (doc.load_function.getD "load_model") with
          | some fn =>
            match fn.callPos [.str model_path] with
            | .ok v => .inl ({ st with model := v }, true)
            | .error _ => .inr st
          | Option.none => .inr st
      else .inr st
  else .inr st

/-- Step 2 of `_try_auto_detect_custom_inference`: scan the conventional
filenames, bind the first importable one and run the common load-function
search; failures continue with the next filename. -/
def autoDetectScan (env : Env) (model_dir model_path : String) :
    List String → LoaderState → LoaderState × Bool
  | [], st => (st, false)
  | f :: rest, st =>
    if env.pathExists (model_dir ++ "/" ++ f) then
      match env.importAt (model_dir ++ "/" ++ f) with
      | .error _ => autoDetectScan env model_dir model_path rest st
      | .ok m =>
        let st := { st with custom_inference := some m, use_custom_inference := true }
        match try_custom_load st model_path (some model_dir) with
        | (st', true) => (st', true)
        | (st', false) => autoDetectScan env model_dir model_path rest st'
    else autoDetectScan env model_dir model_path rest st

/-- `_try_auto_detect_custom_inference`. -/
def try_auto_detect (env : Env) (st : LoaderState) (model_dir model_path : String) :
    LoaderState × Bool :=
  match autoDetectConfigStep env st model_dir model_path with
  | .inl r => r
  | .inr st' => autoDetectScan env model_dir model_path autoFiles st'

/-- `_detect_framework`: suffix table first (lower-cased), then the
TensorFlow SavedModel directory marker, otherwise the framework-undetected
`ValueError`. -/
def detect_framework (env : Env) (model_path : String) : Except Exn String :=
  let ext := lowerStr (env.suffix model_path)
  if ext = ".pt" ∨ ext = ".pth" then .ok "pytorch"
  else if ext = ".h5" then .ok "tensorflow"
  else if ext = ".onnx" then .ok "onnx"
  else if ext = ".pkl" then .ok "sklearn"
  else if env.isDir model_path ∧ env.pathExists (model_path ++ "/saved_model.pb") then
    .ok "tensorflow"
  else .error (.valueError ("Could not detect framework for: " ++ model_path))

/-- The built-in framework tier at the bottom of `load_model`: detect the
framework when no hint is given, install `self.framework`, then dispatch to
the framework-specific loader (whose body is the external runtime). Note
that `self.framework` is assigned before the loader runs. -/
def framework_tier (env : Env) (st : LoaderState) (model_path : String)
    (framework : Option String) : LoaderState × Except Exn Obj :=
  match (match framework with
         | some f => Except.ok f
         | Option.none => detect_framework env model_path) with
  | .error e => (st, .error e)
  | .ok f =>
    let st := { st with framework := some f }
    if f = "pytorch" ∨ f = "tensorflow" ∨ f = "onnx" ∨ f = "sklearn" then
      match env.adapterLoad f model_path with
      | .error e => (st, .error e)
      | .ok v => ({ st with model := v }, .ok v)
    else (st, .error (.valueError ("Unsupported framework: " ++ f)))

/-- `ModelLoader.load_model` of the tmp-app variant: priority 1 the manifest
(`model_config.json` beside an existing `model_dir`), priority 2 an explicit
custom inference script, priority 3 auto-detection inside `model_dir`, then
the built-in framework tier. -/
def load_model (env : Env) (st : LoaderState) (model_path : String)
    (framework : Option String) (custom_inference_path : Option String)
    (model_dir : Option String) : LoaderState × Except Exn Obj :=
  let st := { st with model_path := some model_path }
  if truthy model_dir ∧ env.pathExists (model_dir.getD "") ∧
      env.pathExists (model_dir.getD "" ++ "/model_config.json") then
    load_from_config env st (model_dir.getD "" ++ "/model_config.json") (model_dir.getD "")
  else if truthy custom_inference_path ∧ env.pathExists (custom_inference_path.getD "") then
    match env.importAt (custom_inference_path.getD "") with
    | .error e => (st, .error e)
    | .ok m =>
      let st := { st with custom_inference := some m, use_custom_inference := true }
      match try_custom_load st model_path model_dir with
      | (st', true) => ({ st' with framework := some "custom" }, .ok st'.model)
      | (st', false) =>
        framework_tier env { st' with use_custom_inference := false } model_path framework
  else if truthy model_dir ∧ env.pathExists (model_dir.getD "") then
    match try_auto_detect env st (model_dir.getD "") model_path with
    | (st', true) => ({ st' with framework := some "custom" }, .ok st'.model)
    | (st', false) => framework_tier env st' model_path framework
  else framework_tier env st model_path framework

/-- The fixed candidate order of the heuristic predict search in
`_try_custom_predict`. -/
def predictCandidates : List String := ["predict", "inference", "run", "forward", "__call__"]

/-- The outcome of trying one predict candidate: return a value, move on to
the next candidate, or propagate an exception out of the whole resolution. -/
inductive CandOut where
  | ret (v : Obj)
  | next
  | abort (e : Exn)

/-- One candidate attempt inside `_try_custom_predict`. The primary path
inspects the arity and calls with no argument, the input only, or the model
then the input. A `TypeError` from the primary path (from `inspect.signature`
or from the call itself) enters the fallback chain: call with the input only;
on a further `TypeError`, call with model and input, any failure of which
moves to the next candidate. A non-`TypeError` exception from the input-only
fallback is raised inside the `except TypeError` handler and therefore
propagates, aborting the resolution; a non-`TypeError` from the primary path
is caught by `except Exception` and moves to the next candidate. -/
def tryPredictWith (fn : PyFn) (model input : Obj) : CandOut :=
  match (match fn.sig with
         | .error e => Except.error e
         | .ok 0 => fn.callPos []
         | .ok 1 => fn.callPos [input]
         | .ok _ => fn.callPos [model, input]) with
  | .ok v => .ret v
  | .error (.typeError _) =>
    match fn.callPos [input] with
    | .ok v => .ret v
    | .error (.typeError _) =>
      match fn.callPos [model, input] with
      | .ok v => .ret v
      | .error _ => .next
    | .error e => .abort e
  | .error _ => .next

/-- The `ValueError` raised when every predict candidate has been exhausted. -/
def noPredictMsg : String :=
  "Custom inference loaded but no compatible predict function found. " ++
  "Tried: predict(), inference(), run(), forward(), __call__()"

/-- The candidate loop of the heuristic predict search. -/
def heuristicGo (mod : PyModule) (model input : Obj) : List String → Except Exn Obj
  | [] => .error (.valueError noPredictMsg)
  | name :: rest =>
    match mod name with
    | Option.none => heuristicGo mod model input rest
    | some fn =>
      match tryPredictWith fn model input with
      | .ret v => .ok v
      | .next => heuristicGo mod model input rest
      | .abort e => .error e

/-- The heuristic fallback of `_try_custom_predict`: try the candidate names
in order over the bound module (an unbound module has no attributes). -/
def heuristic_predict (mod : Option PyModule) (model input : Obj) : Except Exn Obj :=
  match mod with
  | Option.none => heuristicGo (fun _ => Option.none) model input predictCandidates
  | some m => heuristicGo m model input predictCandidates

/-- The kwargs built from `predict.args` by `_predict_from_config`:
`input_data` and its accepted alias `data` are bound to the raw input,
`model` to the model handle, and any other token is skipped with a
warning. -/
def buildPredictKwargs (args : List String) (input model : Obj) : List (String × Obj) :=
  args.foldl (fun acc a =>
    if a = "input_data" then acc ++ [("input_data", input)]
    else if a = "model" then acc ++ [("model", model)]
    else if a = "data" then acc ++ [("data", input)]
    else acc) []

/-- `_predict_from_config`: look up the declared predict function, build the
kwargs from the declared argument tokens, invoke it, and re-raise any
exception it throws. -/
def predict_from_config (st : LoaderState) (doc : ConfigDoc) (input : Obj) :
    Except Exn Obj :=
  match doc.predict with
  | Option.none => .error (.keyError "predict")
  | some pc =>
    match pyOr pc.name pc.function_ with
    | Option.none => .error (.typeError "attribute name must be string")
    | some fname =>
      match st.custom_inference.bind (fun m => m fname) with
      | Option.none =>
        .error (.attributeError ("Function " ++ fname ++ " not found in entry point"))
      | some fn => fn.callKw (buildPredictKwargs pc.args input st.model)

/-- `_try_custom_predict`: the config-driven path is taken only when
`self.model_config` is a (truthy) plain dict — i.e. when the pydantic schema
was unavailable at load time — and the heuristic candidate search runs in
every other case, including for a session whose manifest was validated into
a pydantic `ModelConfig` object. -/
def try_custom_predict (st : LoaderState) (input : Obj) : Except Exn Obj :=
  match st.model_config with
  | .rawDict doc => predict_from_config st doc input
  | _ => heuristic_predict st.custom_inference st.model input

/-- `ModelLoader.predict` of the tmp-app variant: the not-loaded guard, the
custom-inference branch, then framework-specific dispatch (external runtimes
behind `Env.adapterPredict`), the custom-without-predict error, and the
implicit `None` return for an unrecognized tag. -/
def predict (env : Env) (st : LoaderState) (input : Obj) : Except Exn Obj :=
  if st.model.isNone then
    .error (.valueError "Model not loaded. Call load_model() first.")
  else if st.use_custom_inference && st.custom_inference.isSome then
    try_custom_predict st input
  else
    match st.framework with
    | some "pytorch" => env.adapterPredict "pytorch" st.model input
    | some "tensorflow" => env.adapterPredict "tensorflow" st.model input
    | some "onnx" => env.adapterPredict "onnx" st.model input
    | some "sklearn" => env.adapterPredict "sklearn" st.model input
    | some "custom" =>
      .error (.valueError "Custom model loaded but no predict() function found in inference.py")
    | _ => .ok .pyNone

end Tmp

namespace Api

/-- JSON-compatible Python values flowing through the api-app loader and
route: `None`, strings, numbers, plain lists, numpy arrays (`nd`), and other
opaque objects. -/
inductive PyVal where
  | none
  | str (s : String)
  | num (n : Int)
  | list (xs : List PyVal)
  | nd (xs : List PyVal)
  | obj (t : String)

/-- `isinstance(v, str)`. -/
def PyVal.isStr : PyVal → Bool
  | .str _ => true
  | _ => false

/-- The argument object actually handed to the underlying model's `predict`:
either a value passed as is, or a value first converted by `np.array`. -/
inductive SkArg where
  | direct (v : PyVal)
  | asArray (v : PyVal)

/-- A raw prediction object as the route sees it: the result of `.tolist()`
when the object has that attribute, the result of `.numpy().tolist()` when it
has a `numpy` attribute, and the value itself for the pass-through case. -/
structure Prediction where
  tolist : Option PyVal
  numpyTolist : Option PyVal
  passthrough : PyVal

/-- A loaded model handle: its behavior when its `predict` method is invoked
on a (possibly numpy-converted) argument. The behavior itself belongs to the
external runtime. -/
structure ModelObj where
  call : SkArg → Except Exn Prediction

/-- A custom `inference.py` module as the api-app loader uses it: an optional
`load_model(model_path)` function and an optional
`predict(model, input_data)` function. -/
structure ApiModule where
  load_model : Option (String → Except Exn (Option ModelObj))
  predict : Option (ModelObj → PyVal → Except Exn Prediction)

/-- The mutable state of the api-app `ModelLoader`. -/
structure ApiState where
  model : Option ModelObj
  framework : Option String
  model_path : Option String
  custom_inference : Option ApiModule
  use_custom_inference : Bool

/-- A freshly constructed api-app `ModelLoader()`. -/
def initialState : ApiState := ⟨Option.none, Option.none, Option.none, Option.none, false⟩

/-- The api-app loader's environment: filesystem observations, dynamic
module import, and the bodies of the four framework-specific loaders and of
the three tensor-framework predictors (external runtimes). -/
structure Env where
  pathExists : String → Bool
  isDir : String → Bool
  suffix : String → String
  importAt : String → Except Exn ApiModule
  adapterLoad : String → String → Except Exn (Option ModelObj)
  adapterPredict : String → ModelObj → PyVal → Except Exn Prediction

/-- `_detect_framework` of the api-app loader (identical to the tmp-app
variant): the lower-cased suffix table, the SavedModel directory marker,
otherwise the framework-undetected `ValueError`. -/
def detect_framework (env : Env) (model_path : String) : Except Exn String :=
  let ext := lowerStr (env.suffix model_path)
  if ext = ".pt" ∨ ext = ".pth" then .ok "pytorch"
  else if ext = ".h5" then .ok "tensorflow"
  else if ext = ".onnx" then .ok "onnx"
  else if ext = ".pkl" then .ok "sklearn"
  else if env.isDir model_path ∧ env.pathExists (model_path ++ "/saved_model.pb") then
    .ok "tensorflow"
  else .error (.valueError ("Could not detect framework for: " ++ model_path))

/-- The framework tier of the api-app `load_model`: detect when no hint is
given, install `self.framework`, then run the framework-specific loader.
`self.framework` is assigned before the loader runs, so a raising loader
leaves the new tag installed with `self.model` untouched. -/
def framework_tier (env : Env) (st : ApiState) (model_path : String)
    (framework : Option String) : ApiState × Except Exn (Option ModelObj) :=
  match (match framework with
         | some f => Except.ok f
         | Option.none => detect_framework env model_path) with
  | .error e => (st, .error e)
  | .ok f =>
    let st := { st with framework := some f }
    if f = "pytorch" ∨ f = "tensorflow" ∨ f = "onnx" ∨ f = "sklearn" then
      match env.adapterLoad f model_path with
      | .error e => (st, .error e)
      | .ok v => ({ st with model := v }, .ok v)
    else (st, .error (.valueError ("Unsupported framework: " ++ f)))

/-- `ModelLoader.load_model` of the api-app variant: the explicit
custom-inference branch (calling the script's `load_model(model_path)`
directly, exceptions propagating), falling back to the framework tier when
the script lacks `load_model`, and the framework tier otherwise. -/
def load_model (env : Env) (st : ApiState) (model_path : String)
    (framework : Option String) (custom_inference_path : Option String) :
    ApiState × Except Exn (Option ModelObj) :=
  let st := { st with model_path := some model_path }
  if Tmp.truthy custom_inference_path ∧ env.pathExists (custom_inference_path.getD "") then
    match env.importAt (custom_inference_path.getD "") with
    | .error e => (st, .error e)
    | .ok m =>
      let st := { st with custom_inference := some m, use_custom_inference := true }
      match m.load_model with
      | some f =>
        match f model_path with
        | .error e => (st, .error e)
        | .ok v => ({ st with model := v, framework := some "custom" }, .ok v)
      | Option.none =>
        framework_tier env { st with use_custom_inference := false } model_path framework
  else framework_tier env st model_path framework

/-- `item[0] if isinstance(item, list) and len(item) > 0 else item` — the
per-item transformation in `_predict_sklearn`'s nested-list branch. -/
def firstOrSelf : PyVal → PyVal
  | .list (x :: _) => x
  | v => v

/-- `np.array` coercion at the bottom of `_predict_sklearn`: a value that is
not already an ndarray is converted. -/
def numericNorm (v : PyVal) : SkArg :=
  match v with
  | .nd xs => .direct (.nd xs)
  | v => .asArray v

/-- The input coercion of `_predict_sklearn`, expressed as the argument
handed to `self.model.predict`: a single string is wrapped in a one-element
list; a non-empty list with a string head passes through unchanged; a
non-empty list whose head is a non-empty list with a string head is mapped
through `firstOrSelf`; everything else takes the numeric `np.array`
conversion. -/
def skCoerce (input : PyVal) : SkArg :=
  match input with
  | .str s => .direct (.list [.str s])
  | .list (x :: rest) =>
    match x with
    | .str t => .direct (.list (.str t :: rest))
    | .list (y :: ys) =>
      if y.isStr then .direct (.list ((PyVal.list (y :: ys) :: rest).map firstOrSelf))
      else numericNorm (.list (.list (y :: ys) :: rest))
    | x => numericNorm (.list (x :: rest))
  | v => numericNorm v

/-- `ModelLoader.predict` of the api-app variant: the not-loaded guard, the
custom `predict(model, input)` branch, framework dispatch with the sklearn
input coercion embedded and the tensor frameworks behind
`Env.adapterPredict`, the custom-without-predict error, and the implicit
`None` return for an unrecognized tag. -/
def predict (env : Env) (st : ApiState) (input : PyVal) : Except Exn Prediction :=
  match st.model with
  | Option.none => .error (.valueError "Model not loaded. Call load_model() first.")
  | some m =>
    match (if st.use_custom_inference then st.custom_inference.bind (fun c => c.predict)
           else Option.none) with
    | some f => f m input
    | Option.none =>
      match st.framework with
      | some "pytorch" => env.adapterPredict "pytorch" m input
      | some "tensorflow" => env.adapterPredict "tensorflow" m input
      | some "onnx" => env.adapterPredict "onnx" m input
      | some "sklearn" => m.call (skCoerce input)
      | some "custom" =>
        .error (.valueError "Custom model loaded but no predict() function found in inference.py")
      | _ => .ok ⟨Option.none, Option.none, .none⟩

/-- The output normalization in the route: use `.tolist()` when the object
has it, else `.numpy().tolist()` when it has `numpy`, else pass the value
through unchanged. -/
def normalize (p : Prediction) : PyVal :=
  match p.tolist with
  | some v => v
  | Option.none =>
    match p.numpyTolist with
    | some v => v
    | Option.none => p.passthrough

/-- An HTTP response of the predict route, as far as a caller can observe
it: a success body, or an error status with its detail string. -/
inductive HttpResp where
  | ok (prediction : PyVal) (model_id : Option String) (framework : Option String)
  | err (status : Nat) (detail : String)

/-- The `/predict` route combined with its `get_model_loader` dependency: a
missing loader object reports 503 "not loaded yet"; with a loader present,
any exception escaping `loader.predict` — including the not-loaded
`ValueError` — is caught and wrapped into a 500 whose detail prefixes the
exception message with "Prediction failed: ". -/
def route_predict (env : Env) (g : Option ApiState) (input : PyVal) : HttpResp :=
  match g with
  | Option.none => .err 503 "Model not loaded yet. Please wait for initialization."
  | some st =>
    match predict env st input with
    | .error e => .err 500 ("Prediction failed: " ++ e.msg)
    | .ok p => .ok (normalize p) st.model_path st.framework

/-- Defined from the spec claim wording for comparison with the code:
"flattened to a flat list" — the concatenation of the inner lists (non-list
items kept as is). -/
def flattenedFlatList (xss : List PyVal) : List PyVal :=
  xss.flatMap (fun x => match x with | .list ys => ys | v => [v])

end Api

section ClaimC6

/-- Claim C6: framework detection returns pytorch for suffixes .pt/.pth,
tensorflow for .h5, onnx for .onnx, sklearn for .pkl, tensorflow for a
directory containing the saved_model.pb marker (when no suffix matched), and
for every non-directory path with any other suffix it raises the
framework-undetected error. -/
theorem detect_framework_total_over_suffix_table (env : Api.Env) (p : String) :
    ((lowerStr (env.suffix p) = ".pt" ∨ lowerStr (env.suffix p) = ".pth") →
      Api.detect_framework env p = .ok "pytorch") ∧
    (lowerStr (env.suffix p) = ".h5" → Api.detect_framework env p = .ok "tensorflow") ∧
    (lowerStr (env.suffix p) = ".onnx" → Api.detect_framework env p = .ok "onnx") ∧
    (lowerStr (env.suffix p) = ".pkl" → Api.detect_framework env p = .ok "sklearn") ∧
    (lowerStr (env.suffix p) ∉ [".pt", ".pth", ".h5", ".onnx", ".pkl"] →
      env.isDir p = true → env.pathExists (p ++ "/saved_model.pb") = true →
      Api.detect_framework env p = .ok "tensorflow") ∧
    (lowerStr (env.suffix p) ∉ [".pt", ".pth", ".h5", ".onnx", ".pkl"] →
      env.isDir p = false →
      Api.detect_framework env p =
        .error (.valueError ("Could not detect framework for: " ++ p))) := by
  refine ⟨?_, ?_, ?_, ?_, ?_, ?_⟩
  · rintro (h | h) <;> simp [Api.detect_framework, h]
  · intro h; simp [Api.detect_framework, h]
  · intro h; simp [Api.detect_framework, h]
  · intro h; simp [Api.detect_framework, h]
  · intro h h1 h2
    simp only [List.mem_cons, List.not_mem_nil, or_false, not_or] at h
    obtain ⟨n1, n2, n3, n4, n5⟩ := h
    simp [Api.detect_framework, n1, n2, n3, n4, n5, h1, h2]
  · intro h h1
    simp only [List.mem_cons, List.not_mem_nil, or_false, not_or] at h
    obtain ⟨n1, n2, n3, n4, n5⟩ := h
    simp [Api.detect_framework, n1, n2, n3, n4, n5, h1]

/-- A filesystem where the path is its own suffix, directories are the path
"dir", and the SavedModel marker exists under "dir". -/
def envC6 : Api.Env where
  pathExists := fun q => q = "dir/saved_model.pb"
  isDir := fun q => q = "dir"
  suffix := fun q => q
  importAt := fun _ => .error (.importError "unused")
  adapterLoad := fun _ _ => .error (.importError "unused")
  adapterPredict := fun _ _ _ => .error (.valueError "unused")

theorem detect_framework_total_over_suffix_table_witness :
    Api.detect_framework envC6 ".pt" = .ok "pytorch" ∧
    Api.detect_framework envC6 ".PTH" = .ok "pytorch" ∧
    Api.detect_framework envC6 ".h5" = .ok "tensorflow" ∧
    Api.detect_framework envC6 ".onnx" = .ok "onnx" ∧
    Api.detect_framework envC6 ".pkl" = .ok "sklearn" ∧
    Api.detect_framework envC6 "dir" = .ok "tensorflow" ∧
    Api.detect_framework envC6 ".xyz" =
      .error (.valueError "Could not detect framework for: .xyz") :=
  ⟨(detect_framework_total_over_suffix_table envC6 ".pt").1 (Or.inl (by decide)),
   (detect_framework_total_over_suffix_table envC6 ".PTH").1 (Or.inr (by decide)),
   (detect_framework_total_over_suffix_table envC6 ".h5").2.1 (by decide),
   (detect_framework_total_over_suffix_table envC6 ".onnx").2.2.1 (by decide),
   (detect_framework_total_over_suffix_table envC6 ".pkl").2.2.2.1 (by decide),
   (detect_framework_total_over_suffix_table envC6 "dir").2.2.2.2.1 (by decide) rfl rfl,
   (detect_framework_total_over_suffix_table envC6 ".xyz").2.2.2.2.2 (by decide) rfl⟩

end ClaimC6

section ClaimC10

/-- Claim C10: output normalization applies its rules in order — a raw value
exposing `.tolist()` is converted with it even when it also exposes
`.numpy()`; otherwise `.numpy().tolist()` is used when available; otherwise
the value passes through unchanged. -/
theorem normalize_order_spec (p : Api.Prediction) :
    (∀ v, p.tolist = some v → Api.normalize p = v) ∧
    (∀ v w, p.tolist = some v → p.numpyTolist = some w → Api.normalize p = v) ∧
    (∀ w, p.tolist = Option.none → p.numpyTolist = some w → Api.normalize p = w) ∧
    (p.tolist = Option.none → p.numpyTolist = Option.none →
      Api.normalize p = p.passthrough) := by
  refine ⟨?_, ?_, ?_, ?_⟩
  · intro v h; simp [Api.normalize, h]
  · intro v w h _; simp [Api.normalize, h]
  · intro w h1 h2; simp [Api.normalize, h1, h2]
  · intro h1 h2; simp [Api.normalize, h1, h2]

theorem normalize_order_spec_witness :
    Api.normalize ⟨some (.num 1), some (.num 2), .num 3⟩ = .num 1 ∧
    Api.normalize ⟨Option.none, some (.num 2), .num 3⟩ = .num 2 ∧
    Api.normalize ⟨Option.none, Option.none, .num 3⟩ = .num 3 :=
  ⟨(normalize_order_spec ⟨some (.num 1), some (.num 2), .num 3⟩).2.1 (.num 1) (.num 2) rfl rfl,
   (normalize_order_spec ⟨Option.none, some (.num 2), .num 3⟩).2.2.1 (.num 2) rfl rfl,
   (normalize_order_spec ⟨Option.none, Option.none, .num 3⟩).2.2.2 rfl rfl⟩

end ClaimC10

section ClaimC7

/-- Claim C7, counterexample: the nested-list branch of `_predict_sklearn`
does not flatten — it keeps only the first element of each inner list, so
the input `[["a", "b"], ["c"]]` is invoked as `["a", "c"]`, not as the
flattened `["a", "b", "c"]`. -/
theorem sklearn_nested_list_not_fully_flattened :
    Api.skCoerce (.list [.list [.str "a", .str "b"], .list [.str "c"]]) =
      .direct (.list [.str "a", .str "c"]) ∧
    Api.flattenedFlatList [.list [.str "a", .str "b"], .list [.str "c"]] =
      [.str "a", .str "b", .str "c"] ∧
    Api.SkArg.direct (.list [.str "a", .str "c"]) ≠
      Api.SkArg.direct (.list [.str "a", .str "b", .str "c"]) := by
  refine ⟨rfl, rfl, ?_⟩
  intro h
  simp at h

/-- Inner lemma for the amended C7: on a list of one-element string lists,
the per-item first-element extraction coincides with flattening. -/
theorem map_firstOrSelf_of_singletons (xss : List Api.PyVal)
    (h : ∀ y ∈ xss, ∃ t, y = Api.PyVal.list [.str t]) :
    xss.map Api.firstOrSelf = Api.flattenedFlatList xss := by
  induction xss with
  | nil => rfl
  | cons x xs ih =>
    obtain ⟨t, rfl⟩ := h x (List.mem_cons_self x xs)
    simp only [List.map_cons, Api.flattenedFlatList, List.flatMap_cons]
    rw [show Api.firstOrSelf (Api.PyVal.list [.str t]) = .str t from rfl]
    have := ih (fun y hy => h y (List.mem_cons_of_mem _ hy))
    simp only [Api.flattenedFlatList] at this
    simp [this]

/-- Claim C7, amended: a single string is invoked as a one-element list; a
non-empty list with a string head passes through unchanged; a non-empty list
of non-empty inner lists whose first inner element is a string is mapped to
the first element of each inner (non-empty) list — which equals full
flattening exactly when every inner list is a one-element string list — and
numeric input not already an ndarray is converted with `np.array`, while an
ndarray passes through. -/
theorem sklearn_input_coercion_spec (s : String) (rest xss ns : List Api.PyVal) (n : Int) :
    (Api.skCoerce (.str s) = .direct (.list [.str s])) ∧
    (Api.skCoerce (.list (.str s :: rest)) = .direct (.list (.str s :: rest))) ∧
    ((∀ y ∈ xss, ∃ t, y = Api.PyVal.list [.str t]) → xss ≠ [] →
      Api.skCoerce (.list xss) = .direct (.list (Api.flattenedFlatList xss))) ∧
    (Api.skCoerce (.list (.list (.num n :: ns) :: rest)) =
      .asArray (.list (.list (.num n :: ns) :: rest))) ∧
    (Api.skCoerce (.nd xss) = .direct (.nd xss)) := by
  refine ⟨rfl, rfl, ?_, rfl, rfl⟩
  intro h hne
  rcases xss with _ | ⟨x, xs⟩
  · exact absurd rfl hne
  · obtain ⟨t, rfl⟩ := h x (List.mem_cons_self x xs)
    rw [show Api.skCoerce (.list (Api.PyVal.list [.str t] :: xs)) =
          .direct (.list ((Api.PyVal.list [.str t] :: xs).map Api.firstOrSelf)) from rfl]
    rw [map_firstOrSelf_of_singletons _ h]

def inputC7 : Api.PyVal := .list [.list [.str "a"], .list [.str "b"]]

theorem sklearn_input_coercion_spec_witness :
    Api.skCoerce (.str "great movie") = .direct (.list [.str "great movie"]) ∧
    Api.skCoerce (.list [.str "a", .str "b"]) = .direct (.list [.str "a", .str "b"]) ∧
    Api.skCoerce inputC7 = .direct (.list (Api.flattenedFlatList [.list [.str "a"], .list [.str "b"]])) ∧
    Api.skCoerce (.list [.list [.num 1, .num 2, .num 3]]) =
      .asArray (.list [.list [.num 1, .num 2, .num 3]]) :=
  ⟨(sklearn_input_coercion_spec "great movie" [] [] [] 0).1,
   (sklearn_input_coercion_spec "a" [.str "b"] [] [] 0).2.1,
   (sklearn_input_coercion_spec "" [] [.list [.str "a"], .list [.str "b"]] [] 0).2.2.1
     (by intro y hy
         simp only [List.mem_cons, List.not_mem_nil, or_false] at hy
         rcases hy with rfl | rfl
         · exact ⟨"a", rfl⟩
         · exact ⟨"b", rfl⟩)
     (by simp),
   (sklearn_input_coercion_spec "" [] [] [.num 2, .num 3] 1).2.2.2.1⟩

end ClaimC7

section ClaimC5

/-- An environment whose pytorch loader raises `ImportError` (torch not
installed) for a `.pt` model file. -/
def envC5 : Api.Env where
  pathExists := fun _ => false
  isDir := fun _ => false
  suffix := fun _ => ".pt"
  importAt := fun _ => .error (.importError "unused")
  adapterLoad := fun _ _ =>
    .error (.importError "PyTorch not installed. Add torch to requirements.txt")
  adapterPredict := fun _ _ _ => .error (.valueError "unused")

/-- Claim C5, counterexample: a fresh session whose `.pt` load raises inside
the pytorch loader ends with `self.framework = "pytorch"` already installed
while `self.model` is still `None` — the handle-iff-tag invariant is
violated, because `load_model` assigns the framework tag before the load
succeeds. -/
theorem failed_framework_load_leaves_partial_state :
    (Api.load_model envC5 Api.initialState "model.pt" Option.none Option.none).2 =
      .error (.importError "PyTorch not installed. Add torch to requirements.txt") ∧
    (Api.load_model envC5 Api.initialState "model.pt" Option.none Option.none).1.framework =
      some "pytorch" ∧
    (Api.load_model envC5 Api.initialState "model.pt" Option.none Option.none).1.model =
      Option.none ∧
    ¬ (((Api.load_model envC5 Api.initialState "model.pt" Option.none Option.none).1.model
          ≠ Option.none) ↔
       ((Api.load_model envC5 Api.initialState "model.pt" Option.none Option.none).1.framework
          ≠ Option.none)) := by
  refine ⟨rfl, rfl, rfl, ?_⟩
  intro h
  exact h.mpr (by simp [show (Api.load_model envC5 Api.initialState "model.pt" Option.none
    Option.none).1.framework = some "pytorch" from rfl]) rfl

/-- Claim C5, amended: when `load_model` reaches the built-in framework tier
with no custom script, the detected framework tag is installed before the
framework-specific loader runs — a loader failure therefore leaves the new
tag set with the model handle unchanged (null for a fresh session) — and on
a successful framework-tier load returning a handle both the handle and the
tag are installed. -/
theorem load_model_tag_and_handle_installation (env : Api.Env) (st : Api.ApiState)
    (mp f : String) (e : Exn) (m : Api.ModelObj)
    (hdet : Api.detect_framework env mp = .ok f)
    (hfour : f = "pytorch" ∨ f = "tensorflow" ∨ f = "onnx" ∨ f = "sklearn") :
    (env.adapterLoad f mp = .error e →
      Api.load_model env st mp Option.none Option.none =
        ({ st with model_path := some mp, framework := some f }, .error e)) ∧
    (env.adapterLoad f mp = .ok (some m) →
      Api.load_model env st mp Option.none Option.none =
        ({ st with model_path := some mp, framework := some f, model := some m },
         .ok (some m))) := by
  constructor
  · intro hload
    rcases hfour with rfl | rfl | rfl | rfl <;>
      simp [Api.load_model, Api.framework_tier, Tmp.truthy, hdet, hload]
  · intro hload
    rcases hfour with rfl | rfl | rfl | rfl <;>
      simp [Api.load_model, Api.framework_tier, Tmp.truthy, hdet, hload]

/-- A concrete loaded-model handle for the C5 witness. -/
def handleC5 : Api.ModelObj := ⟨fun _ => .ok ⟨Option.none, Option.none, .num 0⟩⟩

/-- An environment whose sklearn loader succeeds with a working handle. -/
def envC5ok : Api.Env where
  pathExists := fun _ => false
  isDir := fun _ => false
  suffix := fun _ => ".pkl"
  importAt := fun _ => .error (.importError "unused")
  adapterLoad := fun _ _ => .ok (some handleC5)
  adapterPredict := fun _ _ _ => .error (.valueError "unused")

theorem load_model_tag_and_handle_installation_witness :
    Api.load_model envC5 Api.initialState "model.pt" Option.none Option.none =
      ({ Api.initialState with model_path := some "model.pt", framework := some "pytorch" },
       .error (.importError "PyTorch not installed. Add torch to requirements.txt")) ∧
    Api.load_model envC5ok Api.initialState "model.pkl" Option.none Option.none =
      ({ Api.initialState with
          model_path := some "model.pkl", framework := some "sklearn", model := some handleC5 },
       .ok (some handleC5)) :=
  ⟨(load_model_tag_and_handle_installation envC5 Api.initialState "model.pt" "pytorch"
      (.importError "PyTorch not installed. Add torch to requirements.txt")
      handleC5 rfl (Or.inl rfl)).1 rfl,
   (load_model_tag_and_handle_installation envC5ok Api.initialState "model.pkl" "sklearn"
      (.importError "unused") handleC5 rfl
      (Or.inr (Or.inr (Or.inr rfl)))).2 rfl⟩

end ClaimC5

section ClaimC8

/-- The not-loaded message raised by `ModelLoader.predict`. -/
def notLoadedMsg : String := "Model not loaded. Call load_model() first."

def envC8 : Api.Env where
  pathExists := fun _ => false
  isDir := fun _ => false
  suffix := fun _ => ".pkl"
  importAt := fun _ => .error (.importError "unused")
  adapterLoad := fun _ _ => .error (.importError "unused")
  adapterPredict := fun _ _ _ => .error (.valueError "unused")

/-- The session left behind by a failed startup load: the loader object
exists (`main.py` installs it before loading) but no model is bound. -/
def stUnloaded : Api.ApiState :=
  ⟨Option.none, Option.none, Option.none, Option.none, false⟩

/-- A loaded sklearn session whose model raises a `ValueError` carrying the
very same message at predict time. -/
def stLoadedFailing : Api.ApiState :=
  ⟨some ⟨fun _ => .error (.valueError notLoadedMsg)⟩, some "sklearn",
   Option.none, Option.none, false⟩

/-- Claim C8, counterexample: with the loader object installed (as `main.py`
always does before loading), a predict call against the unloaded session and
a predict call against a loaded session whose invocation fails produce the
byte-identical 500 response — the caller cannot distinguish the two, and the
distinct 503 "not ready" fires only when the loader object itself is
absent. -/
theorem unloaded_predict_conflated_with_invocation_failure :
    Api.route_predict envC8 (some stUnloaded) (.str "x") =
      .err 500 ("Prediction failed: " ++ notLoadedMsg) ∧
    Api.route_predict envC8 (some stLoadedFailing) (.str "x") =
      Api.route_predict envC8 (some stUnloaded) (.str "x") ∧
    stUnloaded.model.isNone = true ∧
    stLoadedFailing.model.isSome = true ∧
    (500 : Nat) ≠ 503 := by
  exact ⟨rfl, rfl, rfl, rfl, by decide⟩

/-- Claim C8, amended: at the loader level an unloaded session raises the
distinct not-loaded `ValueError` immediately, before any invocation is
attempted, and a missing loader object yields the distinct 503; but the
route wraps the not-loaded error into the same generic
"Prediction failed: ..." 500 as any predict-time invocation failure, so the
HTTP caller can distinguish the two conditions only by the embedded message
text, which a failing model can reproduce. -/
theorem unloaded_predict_reporting_spec (env : Api.Env) (st : Api.ApiState)
    (input : Api.PyVal) :
    (st.model = Option.none →
      Api.predict env st input = .error (.valueError notLoadedMsg)) ∧
    (st.model = Option.none →
      Api.route_predict env (some st) input =
        .err 500 ("Prediction failed: " ++ notLoadedMsg)) ∧
    (Api.route_predict env Option.none input =
      .err 503 "Model not loaded yet. Please wait for initialization.") := by
  refine ⟨?_, ?_, rfl⟩
  · intro h; simp [Api.predict, h, notLoadedMsg]
  · intro h
    simp [Api.route_predict, Api.predict, h, notLoadedMsg, Exn.msg]

theorem unloaded_predict_reporting_spec_witness :
    Api.predict envC8 stUnloaded (.str "x") = .error (.valueError notLoadedMsg) ∧
    Api.route_predict envC8 (some stUnloaded) (.str "x") =
      .err 500 ("Prediction failed: " ++ notLoadedMsg) ∧
    Api.route_predict envC8 Option.none (.str "x") =
      .err 503 "Model not loaded yet. Please wait for initialization." :=
  ⟨(unloaded_predict_reporting_spec envC8 stUnloaded (.str "x")).1 rfl,
   (unloaded_predict_reporting_spec envC8 stUnloaded (.str "x")).2.1 rfl,
   (unloaded_predict_reporting_spec envC8 stUnloaded (.str "x")).2.2⟩

end ClaimC8

section ClaimC9

/-- A candidate whose signature introspection raises `TypeError` and whose
input-only call raises a `ValueError` (a non-`TypeError`). -/
def fnSigFailC9 : Tmp.PyFn :=
  ⟨.error (.typeError "unsupported callable"),
   fun args => if args.length = 1 then .error (.valueError "boom") else .ok (.tag "two" args),
   fun _ => .ok .pyNone⟩

/-- A later candidate that would succeed. -/
def fnInferenceC9 : Tmp.PyFn :=
  ⟨.ok 1, fun args => .ok (.tag "viaInference" args), fun _ => .ok .pyNone⟩

def modC9 : Tmp.PyModule := fun n =>
  if n = "predict" then some fnSigFailC9
  else if n = "inference" then some fnInferenceC9
  else Option.none

/-- Claim C9, counterexample: when introspection of `predict` raises
`TypeError` and the input-only direct attempt raises a non-`TypeError`, that
exception is raised inside the `except TypeError` handler and propagates —
the model-plus-input attempt is never made and the viable later candidate
`inference` is never tried, so a single raising attempt aborts the
resolution. -/
theorem fallback_first_attempt_nontypeerror_aborts :
    modC9 "inference" = some fnInferenceC9 ∧
    Tmp.tryPredictWith fnInferenceC9 (.tag "M" []) (.str "x") =
      .ret (.tag "viaInference" [.str "x"]) ∧
    Tmp.heuristic_predict (some modC9) (.tag "M" []) (.str "x") =
      .error (.valueError "boom") := by
  exact ⟨rfl, rfl, rfl⟩

/-- Claim C9, amended: when signature introspection (or the primary
arity-dispatched call) raises `TypeError`, the engine retries with the input
only; if that raises `TypeError` too, it retries with the model then the
input, and only failures of this last attempt move to the next candidate.
But a non-`TypeError` raised by the input-only retry propagates out of the
handler and aborts the whole resolution, and a non-`TypeError` introspection
failure skips the candidate without any direct-invocation fallback. -/
theorem sig_failure_fallback_spec (fn : Tmp.PyFn) (mod : Tmp.PyModule)
    (model input v : Tmp.Obj) (s s2 m : String) (e e2 : Exn) (name : String)
    (rest : List String) :
    (fn.sig = .error (.typeError s) → fn.callPos [input] = .ok v →
      Tmp.tryPredictWith fn model input = .ret v) ∧
    (fn.sig = .error (.typeError s) → fn.callPos [input] = .error (.typeError s2) →
      fn.callPos [model, input] = .ok v →
      Tmp.tryPredictWith fn model input = .ret v) ∧
    (fn.sig = .error (.typeError s) → fn.callPos [input] = .error (.typeError s2) →
      fn.callPos [model, input] = .error e2 →
      Tmp.tryPredictWith fn model input = .next) ∧
    (fn.sig = .error (.typeError s) → fn.callPos [input] = .error (.valueError m) →
      Tmp.tryPredictWith fn model input = .abort (.valueError m)) ∧
    (fn.sig = .error (.valueError s) → Tmp.tryPredictWith fn model input = .next) ∧
    (mod name = some fn → Tmp.tryPredictWith fn model input = Tmp.CandOut.next →
      Tmp.heuristicGo mod model input (name :: rest) =
        Tmp.heuristicGo mod model input rest) ∧
    (mod name = some fn → Tmp.tryPredictWith fn model input = .abort e →
      Tmp.heuristicGo mod model input (name :: rest) = .error e) := by
  refine ⟨?_, ?_, ?_, ?_, ?_, ?_, ?_⟩
  · intro h1 h2; simp [Tmp.tryPredictWith, h1, h2]
  · intro h1 h2 h3; simp [Tmp.tryPredictWith, h1, h2, h3]
  · intro h1 h2 h3; simp [Tmp.tryPredictWith, h1, h2, h3]
  · intro h1 h2; simp [Tmp.tryPredictWith, h1, h2]
  · intro h1; simp [Tmp.tryPredictWith, h1]
  · intro h1 h2; simp [Tmp.heuristicGo, h1, h2]
  · intro h1 h2; simp [Tmp.heuristicGo, h1, h2]

/-- A candidate whose introspection raises `TypeError` and whose input-only
retry raises `TypeError` as well, while model-plus-input succeeds. -/
def fnC9b : Tmp.PyFn :=
  ⟨.error (.typeError "unsupported callable"),
   fun args => if args.length = 1 then .error (.typeError "one arg refused")
     else .ok (.tag "two" args),
   fun _ => .ok .pyNone⟩

/-- A candidate raising `TypeError` everywhere: reported failed, search
continues. -/
def fnC9c : Tmp.PyFn :=
  ⟨.error (.typeError "unsupported callable"),
   fun _ => .error (.typeError "refused"), fun _ => .ok .pyNone⟩

/-- A candidate whose input-only call succeeds after introspection fails. -/
def fnC9a : Tmp.PyFn :=
  ⟨.error (.typeError "unsupported callable"),
   fun args => .ok (.tag "one" args), fun _ => .ok .pyNone⟩

/-- A candidate whose introspection raises a non-`TypeError`. -/
def fnC9e : Tmp.PyFn :=
  ⟨.error (.valueError "no signature"),
   fun args => .ok (.tag "one" args), fun _ => .ok .pyNone⟩

def modNextC9 : Tmp.PyModule := fun n =>
  if n = "predict" then some fnC9c
  else if n = "inference" then some fnInferenceC9
  else Option.none

theorem sig_failure_fallback_spec_witness :
    Tmp.tryPredictWith fnC9a (.tag "M" []) (.str "x") = .ret (.tag "one" [.str "x"]) ∧
    Tmp.tryPredictWith fnC9b (.tag "M" []) (.str "x") =
      .ret (.tag "two" [.tag "M" [], .str "x"]) ∧
    Tmp.tryPredictWith fnC9c (.tag "M" []) (.str "x") = .next ∧
    Tmp.tryPredictWith fnSigFailC9 (.tag "M" []) (.str "x") =
      .abort (.valueError "boom") ∧
    Tmp.tryPredictWith fnC9e (.tag "M" []) (.str "x") = .next ∧
    Tmp.heuristicGo modNextC9 (.tag "M" []) (.str "x") ["predict", "inference"] =
      Tmp.heuristicGo modNextC9 (.tag "M" []) (.str "x") ["inference"] ∧
    Tmp.heuristicGo modC9 (.tag "M" []) (.str "x") ["predict", "inference"] =
      .error (.valueError "boom") :=
  ⟨(sig_failure_fallback_spec fnC9a modC9 (.tag "M" []) (.str "x") (.tag "one" [.str "x"])
      "unsupported callable" "" "" (.valueError "") (.valueError "") "predict" []).1 rfl rfl,
   (sig_failure_fallback_spec fnC9b modC9 (.tag "M" []) (.str "x")
      (.tag "two" [.tag "M" [], .str "x"]) "unsupported callable" "one arg refused" ""
      (.valueError "") (.valueError "") "predict" []).2.1 rfl rfl rfl,
   (sig_failure_fallback_spec fnC9c modC9 (.tag "M" []) (.str "x") .pyNone
      "unsupported callable" "refused" "" (.valueError "") (.typeError "refused")
      "predict" []).2.2.1 rfl rfl rfl,
   (sig_failure_fallback_spec fnSigFailC9 modC9 (.tag "M" []) (.str "x") .pyNone
      "unsupported callable" "" "boom" (.valueError "") (.valueError "") "predict"
      []).2.2.2.1 rfl rfl,
   (sig_failure_fallback_spec fnC9e modC9 (.tag "M" []) (.str "x") .pyNone
      "no signature" "" "" (.valueError "") (.valueError "") "predict" []).2.2.2.2.1 rfl,
   (sig_failure_fallback_spec fnC9c modNextC9 (.tag "M" []) (.str "x") .pyNone
      "" "" "" (.valueError "") (.valueError "") "predict" ["inference"]).2.2.2.2.2.1
      rfl rfl,
   (sig_failure_fallback_spec fnSigFailC9 modC9 (.tag "M" []) (.str "x") .pyNone
      "" "" "" (.valueError "boom") (.valueError "") "predict"
      ["inference"]).2.2.2.2.2.2 rfl rfl⟩

end ClaimC9

section ClaimC1

/-- A well-formed manifest declaring `cfg_predict` as the predict
function. -/
def docC1 : Tmp.ConfigDoc :=
  ⟨some "M", some "1.0.0", some "custom", some "inference.py", Option.none,
   Option.none, some ⟨some "load_model", Option.none, ["model_path"]⟩,
   some ⟨some "cfg_predict", Option.none, ["input_data"]⟩, some "model.pkl", Option.none⟩

/-- An entry-point module where the manifest-declared `cfg_predict` and the
heuristic candidate `predict` return distinguishable values. -/
def modC1 : Tmp.PyModule := fun n =>
  if n = "load_model" then
    some ⟨.ok 1, fun _ => .ok (.tag "handle" []), fun _ => .ok (.tag "handle" [])⟩
  else if n = "cfg_predict" then
    some ⟨.ok 1, fun args => .ok (.tag "viaConfig" args),
      fun kw => .ok (.tag "viaConfig" (kw.map Prod.snd))⟩
  else if n = "predict" then
    some ⟨.ok 1, fun args => .ok (.tag "viaHeuristic" args),
      fun kw => .ok (.tag "viaHeuristic" (kw.map Prod.snd))⟩
  else Option.none

/-- The pydantic schema module is importable in this deployment, as it is in
the repository (`app/schemas/model_config.py` sits beside the loader). -/
def envC1 : Tmp.Env where
  pathExists := fun _ => true
  isDir := fun _ => false
  suffix := fun _ => ".pkl"
  parseJson := fun _ => .ok docC1
  importAt := fun _ => .ok modC1
  validatorAvailable := true
  adapterLoad := fun _ _ => .error (.importError "unused")
  adapterPredict := fun _ _ _ => .error (.valueError "unused")

/-- Claim C1: a session loaded via a manifest with the pydantic schema
present stores a validated `ModelConfig` object, so
`isinstance(self.model_config, dict)` is false and the subsequent predict
call runs the heuristic candidate-name search — answering through the
conventional `predict` function instead of the manifest-declared
`cfg_predict` — contradicting the claim that such a session uses the
declared predict function exclusively. -/
theorem manifest_loaded_session_predict_takes_heuristic_path :
    (∃ c, (Tmp.load_model envC1 Tmp.initialState "d/model.pkl" Option.none Option.none
        (some "d")).1.model_config = Tmp.ConfigStore.validated c) ∧
    (Tmp.load_model envC1 Tmp.initialState "d/model.pkl" Option.none Option.none
        (some "d")).2 = .ok (.tag "handle" []) ∧
    Tmp.predict envC1
        (Tmp.load_model envC1 Tmp.initialState "d/model.pkl" Option.none Option.none
          (some "d")).1 (.str "inp") =
      .ok (.tag "viaHeuristic" [.str "inp"]) ∧
    Except.ok (Tmp.Obj.tag "viaHeuristic" [.str "inp"]) ≠
      (.ok (.tag "viaConfig" [.str "inp"]) : Except Exn Tmp.Obj) := by
  refine ⟨⟨⟨"M", "1.0.0", "custom", "inference.py", "module", Option.none,
    ⟨"load_model", ["model_path"]⟩, ⟨"cfg_predict", ["input_data"]⟩, "model.pkl"⟩, rfl⟩,
    rfl, rfl, ?_⟩
  intro h
  simp at h

end ClaimC1

section ClaimC4

/-- Claim C4: in the explicit-custom-script tier the load-function candidates
are tried in the fixed order load_model, load, initialize, init, setup; an
existing candidate is called with a positional-argument count chosen by its
arity (0: no arguments; 1: the model path; 2: model path and model
directory); an exception from a candidate moves to the next candidate, an
absent candidate is skipped, the first candidate returning a non-null result
terminates the search with the handle installed, and exhaustion returns
False, upon which load_model falls through to the built-in framework tier
instead of failing. -/
theorem custom_load_candidate_search_spec (env : Tmp.Env) (mod m' : Tmp.PyModule)
    (st st' : Tmp.LoaderState) (mp cip : String) (md : Option String)
    (fw : Option String) (name : String) (rest : List String) (fn : Tmp.PyFn)
    (e : Exn) (v : Tmp.Obj) :
    Tmp.loadCandidates = ["load_model", "load", "initialize", "init", "setup"] ∧
    (fn.sig = .ok 0 →
      Tmp.tryLoadWith fn mp (Tmp.resolveDir md mp) = fn.callPos []) ∧
    (fn.sig = .ok 1 →
      Tmp.tryLoadWith fn mp (Tmp.resolveDir md mp) = fn.callPos [.str mp]) ∧
    (fn.sig = .ok 2 →
      Tmp.tryLoadWith fn mp (Tmp.resolveDir md mp) =
        fn.callPos [.str mp, .str (Tmp.resolveDir md mp)]) ∧
    (mod name = Option.none →
      Tmp.tryLoadGo mod mp md (name :: rest) st = Tmp.tryLoadGo mod mp md rest st) ∧
    (mod name = some fn → Tmp.tryLoadWith fn mp (Tmp.resolveDir md mp) = .error e →
      Tmp.tryLoadGo mod mp md (name :: rest) st = Tmp.tryLoadGo mod mp md rest st) ∧
    (mod name = some fn → Tmp.tryLoadWith fn mp (Tmp.resolveDir md mp) = .ok v →
      v.isNone = false →
      Tmp.tryLoadGo mod mp md (name :: rest) st = ({ st with model := v }, true)) ∧
    (Tmp.tryLoadGo mod mp md [] st = (st, false)) ∧
    (¬ (Tmp.truthy md ∧ env.pathExists (md.getD "") ∧
          env.pathExists (md.getD "" ++ "/model_config.json")) →
      cip ≠ "" → env.pathExists cip = true → env.importAt cip = .ok m' →
      Tmp.tryLoadGo m' mp md Tmp.loadCandidates
          { st with model_path := some mp, custom_inference := some m',
                    use_custom_inference := true } = (st', false) →
      Tmp.load_model env st mp fw (some cip) md =
        Tmp.framework_tier env { st' with use_custom_inference := false } mp fw) := by
  refine ⟨rfl, ?_, ?_, ?_, ?_, ?_, ?_, rfl, ?_⟩
  · intro h; simp [Tmp.tryLoadWith, h]
  · intro h; simp [Tmp.tryLoadWith, h]
  · intro h; simp [Tmp.tryLoadWith, h]
  · intro h; simp [Tmp.tryLoadGo, h]
  · intro h1 h2; simp [Tmp.tryLoadGo, h1, h2]
  · intro h1 h2 h3; simp [Tmp.tryLoadGo, h1, h2, h3]
  · intro hman hcip hex himp hgo
    unfold Tmp.load_model
    rw [if_neg hman, if_pos (by exact ⟨by simp [Tmp.truthy, hcip], hex⟩)]
    simp only [Option.getD_some, himp, Tmp.try_custom_load, hgo]

def fn0W : Tmp.PyFn := ⟨.ok 0, fun args => .ok (.tag "called0" args), fun _ => .ok .pyNone⟩

def fn2W : Tmp.PyFn := ⟨.ok 2, fun args => .ok (.tag "called2" args), fun _ => .ok .pyNone⟩

def fnErrW : Tmp.PyFn :=
  ⟨.ok 1, fun _ => .error (.valueError "candidate boom"), fun _ => .ok .pyNone⟩

/-- A module with a failing `load` and a succeeding third candidate. -/
def modW : Tmp.PyModule := fun n =>
  if n = "load" then some fnErrW
  else if n = "initialize" then some fn2W
  else Option.none

/-- A module with no attributes at all. -/
def modNoneW : Tmp.PyModule := fun _ => Option.none

def envC4 : Tmp.Env where
  pathExists := fun p => p = "inf.py"
  isDir := fun _ => false
  suffix := fun _ => ".pkl"
  parseJson := fun _ => .error (.jsonError "unused")
  importAt := fun p => if p = "inf.py" then .ok modNoneW else .error (.importError "unused")
  validatorAvailable := true
  adapterLoad := fun _ _ => .ok (.tag "skmodel" [])
  adapterPredict := fun _ _ _ => .error (.valueError "unused")

/-- The loader state right after the explicit-custom-script tier has bound
the (attribute-free) module in the C4 witness scenario. -/
def stBoundW : Tmp.LoaderState :=
  { Tmp.initialState with
      model_path := some "pkg/m.pkl", custom_inference := some modNoneW,
      use_custom_inference := true }

theorem custom_load_candidate_search_spec_witness :
    Tmp.tryLoadWith fn0W "pkg/m.pkl" (Tmp.resolveDir (some "d") "pkg/m.pkl") =
      fn0W.callPos [] ∧
    Tmp.tryLoadWith fnErrW "pkg/m.pkl" (Tmp.resolveDir (some "d") "pkg/m.pkl") =
      fnErrW.callPos [.str "pkg/m.pkl"] ∧
    Tmp.tryLoadWith fn2W "pkg/m.pkl" (Tmp.resolveDir (some "d") "pkg/m.pkl") =
      fn2W.callPos [.str "pkg/m.pkl", .str (Tmp.resolveDir (some "d") "pkg/m.pkl")] ∧
    Tmp.tryLoadGo modW "pkg/m.pkl" (some "d") ["load_model", "load"] Tmp.initialState =
      Tmp.tryLoadGo modW "pkg/m.pkl" (some "d") ["load"] Tmp.initialState ∧
    Tmp.tryLoadGo modW "pkg/m.pkl" (some "d") ["load", "initialize"] Tmp.initialState =
      Tmp.tryLoadGo modW "pkg/m.pkl" (some "d") ["initialize"] Tmp.initialState ∧
    Tmp.tryLoadGo modW "pkg/m.pkl" (some "d") ["initialize"] Tmp.initialState =
      ({ Tmp.initialState with
          model := .tag "called2" [.str "pkg/m.pkl", .str "d"] }, true) ∧
    Tmp.tryLoadGo modW "pkg/m.pkl" (some "d") [] Tmp.initialState =
      (Tmp.initialState, false) ∧
    Tmp.load_model envC4 Tmp.initialState "pkg/m.pkl" Option.none (some "inf.py")
        (some "d") =
      Tmp.framework_tier envC4 { stBoundW with use_custom_inference := false }
        "pkg/m.pkl" Option.none :=
  ⟨(custom_load_candidate_search_spec envC4 modW modNoneW Tmp.initialState Tmp.initialState
      "pkg/m.pkl" "inf.py" (some "d") Option.none "x" [] fn0W (.valueError "")
      .pyNone).2.1 rfl,
   (custom_load_candidate_search_spec envC4 modW modNoneW Tmp.initialState Tmp.initialState
      "pkg/m.pkl" "inf.py" (some "d") Option.none "x" [] fnErrW (.valueError "")
      .pyNone).2.2.1 rfl,
   (custom_load_candidate_search_spec envC4 modW modNoneW Tmp.initialState Tmp.initialState
      "pkg/m.pkl" "inf.py" (some "d") Option.none "x" [] fn2W (.valueError "")
      .pyNone).2.2.2.1 rfl,
   (custom_load_candidate_search_spec envC4 modW modNoneW Tmp.initialState Tmp.initialState
      "pkg/m.pkl" "inf.py" (some "d") Option.none "load_model" ["load"] fn0W
      (.valueError "") .pyNone).2.2.2.2.1 rfl,
   (custom_load_candidate_search_spec envC4 modW modNoneW Tmp.initialState Tmp.initialState
      "pkg/m.pkl" "inf.py" (some "d") Option.none "load" ["initialize"] fnErrW
      (.valueError "candidate boom") .pyNone).2.2.2.2.2.1 rfl rfl,
   (custom_load_candidate_search_spec envC4 modW modNoneW Tmp.initialState Tmp.initialState
      "pkg/m.pkl" "inf.py" (some "d") Option.none "initialize" [] fn2W
      (.valueError "") (.tag "called2" [.str "pkg/m.pkl", .str "d"])).2.2.2.2.2.2.1
      rfl rfl rfl,
   (custom_load_candidate_search_spec envC4 modW modNoneW Tmp.initialState Tmp.initialState
      "pkg/m.pkl" "inf.py" (some "d") Option.none "x" [] fn0W (.valueError "")
      .pyNone).2.2.2.2.2.2.2.1,
   (custom_load_candidate_search_spec envC4 modNoneW modNoneW Tmp.initialState stBoundW
      "pkg/m.pkl" "inf.py" (some "d") Option.none "x" [] fn0W (.valueError "")
      .pyNone).2.2.2.2.2.2.2.2 (by decide) (by decide) rfl rfl rfl⟩

end ClaimC4

section ClaimC2

/-- Helper for C2: a successful run of the post-validation part of
`_load_from_config` requires every step — entry point present on disk, its
module import succeeding, declared load function present, call succeeding. -/
theorem load_from_config_tail_ok (env : Tmp.Env) (st : Tmp.LoaderState)
    (doc : Tmp.ConfigDoc) (d : String) (v : Tmp.Obj)
    (h : (Tmp.load_from_config_tail env st doc d).2 = .ok v) :
    ∃ ep, doc.entry_point = some ep ∧ env.pathExists (d ++ "/" ++ ep) = true ∧
    ∃ m, env.importAt (d ++ "/" ++ ep) = .ok m ∧
    ∃ lc, doc.load = some lc ∧
    ∃ fname, Tmp.pyOr lc.name lc.function_ = some fname ∧
    ∃ fn, m fname = some fn ∧
    ∃ mf, doc.model_file = some mf ∧
      fn.callKw (Tmp.buildLoadKwargs lc.args (d ++ "/" ++ mf) d) = .ok v := by
  unfold Tmp.load_from_config_tail at h
  cases hep : doc.entry_point with
  | none => simp only [hep] at h; exact Except.noConfusion h
  | some ep =>
  simp only [hep] at h
  by_cases hex : env.pathExists (d ++ "/" ++ ep) = true
  case neg =>
    rw [if_pos (by simpa using hex)] at h
    simp at h
  case pos =>
  rw [if_neg (by simp [hex])] at h
  cases him : env.importAt (d ++ "/" ++ ep) with
  | error e => simp only [him] at h; exact Except.noConfusion h
  | ok m =>
  simp only [him] at h
  cases hlc : doc.load with
  | none => simp only [hlc] at h; exact Except.noConfusion h
  | some lc =>
  simp only [hlc] at h
  cases hname : Tmp.pyOr lc.name lc.function_ with
  | none => simp only [hname] at h; exact Except.noConfusion h
  | some fname =>
  simp only [hname] at h
  cases hfn : m fname with
  | none => simp only [hfn] at h; exact Except.noConfusion h
  | some fn =>
  simp only [hfn] at h
  cases hmf : doc.model_file with
  | none => simp only [hmf] at h; exact Except.noConfusion h
  | some mf =>
  simp only [hmf] at h
  cases hcall : fn.callKw (Tmp.buildLoadKwargs lc.args (d ++ "/" ++ mf) d) with
  | error e => simp only [hcall] at h; exact Except.noConfusion h
  | ok w =>
  simp only [hcall, Except.ok.injEq] at h
  exact ⟨ep, rfl, hex, m, him, lc, rfl, fname, hname, fn, hfn, mf, rfl, by rw [hcall, h]⟩

/-- Claim C2: when a manifest is present beside an existing model directory,
`load_model` resolves through `_load_from_config` exclusively — regardless of
any custom script or heuristic alternative — and a successful manifest-tier
load requires the config to parse, validate (or pass the basic required-field
check), the entry point to exist and import, the declared load function to
exist, and its invocation to succeed; the absence of any of these conditions
therefore yields a raised error, never a fall-through to another tier. -/
theorem manifest_tier_failures_are_fatal (env : Tmp.Env) (st : Tmp.LoaderState)
    (mp d cp : String) (fw : Option String) (cip md : Option String) (v : Tmp.Obj) :
    (md = some d → d ≠ "" → env.pathExists d = true →
      env.pathExists (d ++ "/model_config.json") = true →
      Tmp.load_model env st mp fw cip md =
        Tmp.load_from_config env { st with model_path := some mp }
          (d ++ "/model_config.json") d) ∧
    ((Tmp.load_from_config env st cp d).2 = .ok v →
      ∃ doc, env.parseJson cp = .ok doc ∧
        (env.validatorAvailable = true → ∃ c, Tmp.validate_file doc = .ok c) ∧
        (env.validatorAvailable = false → Tmp.requiredFieldMissing doc = false) ∧
        ∃ ep, doc.entry_point = some ep ∧ env.pathExists (d ++ "/" ++ ep) = true ∧
        ∃ m, env.importAt (d ++ "/" ++ ep) = .ok m ∧
        ∃ lc, doc.load = some lc ∧
        ∃ fname, Tmp.pyOr lc.name lc.function_ = some fname ∧
        ∃ fn, m fname = some fn ∧
        ∃ mf, doc.model_file = some mf ∧
          fn.callKw (Tmp.buildLoadKwargs lc.args (d ++ "/" ++ mf) d) = .ok v) := by
  constructor
  · rintro rfl hd h1 h2
    unfold Tmp.load_model
    rw [if_pos ⟨by simp [Tmp.truthy, hd], h1, h2⟩]
    rfl
  · intro h
    unfold Tmp.load_from_config at h
    cases hp : env.parseJson cp with
    | error e => simp only [hp] at h; exact Except.noConfusion h
    | ok doc =>
    simp only [hp] at h
    refine ⟨doc, rfl, ?_⟩
    by_cases hv : env.validatorAvailable = true
    · rw [if_pos hv] at h
      cases hval : Tmp.validate_file doc with
      | error e => simp only [hval] at h; exact Except.noConfusion h
      | ok c =>
        simp only [hval] at h
        exact ⟨fun _ => ⟨c, rfl⟩, fun hvf => by rw [hvf] at hv; exact Bool.noConfusion hv,
          load_from_config_tail_ok env _ doc d v h⟩
    · rw [if_neg hv] at h
      cases hreq : Tmp.requiredFieldMissing doc with
      | true => simp only [hreq, if_true] at h; exact Except.noConfusion h
      | false =>
        simp only [hreq, if_false, Bool.false_eq_true] at h
        exact ⟨fun hv' => absurd hv' hv, fun _ => rfl,
          load_from_config_tail_ok env _ doc d v h⟩

/-- A well-formed manifest document for the C2 witness. -/
def docC2 : Tmp.ConfigDoc :=
  ⟨some "SentimentModel", some "1.0.0", some "custom", some "inference.py", Option.none,
   Option.none, some ⟨some "load_model", Option.none, ["model_path"]⟩,
   some ⟨some "predict", Option.none, ["input_data"]⟩, some "model.pkl", Option.none⟩

/-- An entry-point module exposing only the declared load function. -/
def modC2 : Tmp.PyModule := fun n =>
  if n = "load_model" then
    some ⟨.ok 1, fun _ => .ok (.tag "handle" []), fun _ => .ok (.tag "handle" [])⟩
  else Option.none

def envC2 : Tmp.Env where
  pathExists := fun _ => true
  isDir := fun _ => false
  suffix := fun _ => ".pkl"
  parseJson := fun _ => .ok docC2
  importAt := fun _ => .ok modC2
  validatorAvailable := true
  adapterLoad := fun _ _ => .error (.importError "unused")
  adapterPredict := fun _ _ _ => .error (.valueError "unused")

theorem manifest_tier_failures_are_fatal_witness :
    Tmp.load_model envC2 Tmp.initialState "m.pkl" Option.none Option.none (some "d") =
      Tmp.load_from_config envC2 { Tmp.initialState with model_path := some "m.pkl" }
        ("d" ++ "/model_config.json") "d" ∧
    (∃ doc, envC2.parseJson ("d" ++ "/model_config.json") = .ok doc ∧
      (envC2.validatorAvailable = true → ∃ c, Tmp.validate_file doc = .ok c) ∧
      (envC2.validatorAvailable = false → Tmp.requiredFieldMissing doc = false) ∧
      ∃ ep, doc.entry_point = some ep ∧ envC2.pathExists ("d" ++ "/" ++ ep) = true ∧
      ∃ m, envC2.importAt ("d" ++ "/" ++ ep) = .ok m ∧
      ∃ lc, doc.load = some lc ∧
      ∃ fname, Tmp.pyOr lc.name lc.function_ = some fname ∧
      ∃ fn, m fname = some fn ∧
      ∃ mf, doc.model_file = some mf ∧
        fn.callKw (Tmp.buildLoadKwargs lc.args ("d" ++ "/" ++ mf) "d") =
          .ok (.tag "handle" [])) :=
  ⟨(manifest_tier_failures_are_fatal envC2 Tmp.initialState "m.pkl" "d"
      ("d" ++ "/model_config.json") Option.none Option.none (some "d")
      (.tag "handle" [])).1 rfl (by decide) rfl rfl,
   (manifest_tier_failures_are_fatal envC2 Tmp.initialState "m.pkl" "d"
      ("d" ++ "/model_config.json") Option.none Option.none (some "d")
      (.tag "handle" [])).2 rfl⟩

end ClaimC2

section ClaimC3

/-- A manifest document whose predict args contain the out-of-vocabulary
tokens `data` and `bogus_arg`; with the schema unavailable, the basic
required-field check does not inspect args at all. -/
def docC3 : Tmp.ConfigDoc :=
  ⟨Option.none, Option.none, some "custom", some "inference.py", Option.none,
   Option.none, some ⟨some "load_model", Option.none, ["model_path"]⟩,
   some ⟨some "predict", Option.none, ["data", "bogus_arg"]⟩, some "model.pkl",
   Option.none⟩

/-- An entry-point module whose predict function records the keyword
arguments it receives. -/
def modC3 : Tmp.PyModule := fun n =>
  if n = "load_model" then
    some ⟨.ok 1, fun _ => .ok (.tag "handle" []), fun _ => .ok (.tag "handle" [])⟩
  else if n = "predict" then
    some ⟨.ok 1, fun args => .ok (.tag "called" args),
      fun kw => .ok (.tag "called" (kw.map (fun p => Tmp.Obj.tag p.1 [p.2])))⟩
  else Option.none

/-- The pydantic schema module fails to import in this deployment (the
loader's fallback branch). -/
def envC3 : Tmp.Env where
  pathExists := fun _ => true
  isDir := fun _ => false
  suffix := fun _ => ".pkl"
  parseJson := fun _ => .ok docC3
  importAt := fun _ => .ok modC3
  validatorAvailable := false
  adapterLoad := fun _ _ => .error (.importError "unused")
  adapterPredict := fun _ _ _ => .error (.valueError "unused")

/-- Claim C3, counterexample: in the no-validator path a manifest whose
predict args contain the out-of-vocabulary tokens `data` and `bogus_arg`
loads without any validation error, and the subsequent predict call binds
`data` to the raw input (the accepted alias) while silently skipping
`bogus_arg` — no error names either token. -/
theorem unknown_token_accepted_in_dict_config_path :
    ("data" ∉ Tmp.validArgs ∧ "bogus_arg" ∉ Tmp.validArgs) ∧
    (Tmp.load_model envC3 Tmp.initialState "d/model.pkl" Option.none Option.none
        (some "d")).2 = .ok (.tag "handle" []) ∧
    Tmp.predict envC3
        (Tmp.load_model envC3 Tmp.initialState "d/model.pkl" Option.none Option.none
          (some "d")).1 (.str "x") =
      .ok (.tag "called" [.tag "data" [.str "x"]]) := by
  exact ⟨⟨by decide, by decide⟩, rfl, rfl⟩

/-- Helper for C3: `validate_args` rejects at the first out-of-vocabulary
token, naming it. -/
theorem validate_args_first_offender (a : String) (pre post : List String)
    (ha : a ∉ Tmp.validArgs) (hpre : ∀ b ∈ pre, b ∈ Tmp.validArgs) :
    Tmp.validate_args (pre ++ a :: post) = .error (.valueError (Tmp.invalidArgMsg a)) := by
  induction pre with
  | nil => simp [Tmp.validate_args, ha]
  | cons b bs ih =>
    have hb := hpre b (List.mem_cons_self b bs)
    simp only [List.cons_append, Tmp.validate_args, hb, if_pos]
    exact ih (fun y hy => hpre y (List.mem_cons_of_mem _ hy))

/-- Claim C3, amended: when the pydantic schema is available its
`FunctionConfig` validation rejects any out-of-vocabulary token in
`load.args`/`predict.args` with a `ValueError` naming the first offending
token; but the loader itself never validates tokens — when building kwargs,
`_load_from_config` and `_predict_from_config` silently skip unknown tokens,
and `_predict_from_config` (reachable in the no-validator path) additionally
accepts the out-of-vocabulary token `data` as an alias of the raw input. -/
theorem arg_token_validation_and_fallback_binding (a fname fld mfp dpath : String)
    (pre post : List String) (input model : Tmp.Obj) (spec : Tmp.FnSpec) :
    (a ∉ Tmp.validArgs → (∀ b ∈ pre, b ∈ Tmp.validArgs) →
      Tmp.validate_args (pre ++ a :: post) =
        .error (.valueError (Tmp.invalidArgMsg a))) ∧
    (a ∉ Tmp.validArgs → (∀ b ∈ pre, b ∈ Tmp.validArgs) →
      spec.name = some fname → spec.args = pre ++ a :: post →
      Tmp.validateFnSpec fld (some spec) =
        .error (.valueError (Tmp.invalidArgMsg a))) ∧
    (Tmp.buildPredictKwargs ["data"] input model = [("data", input)]) ∧
    (a ∉ ["input_data", "model", "data"] →
      Tmp.buildPredictKwargs [a] input model = []) ∧
    (a ∉ ["model_path", "model_dir"] → Tmp.buildLoadKwargs [a] mfp dpath = []) := by
  refine ⟨validate_args_first_offender a pre post, ?_, rfl, ?_, ?_⟩
  · intro ha hpre hnm hargs
    simp only [Tmp.validateFnSpec, hnm, hargs,
      validate_args_first_offender a pre post ha hpre]
  · intro ha
    simp only [List.mem_cons, List.not_mem_nil, or_false, not_or] at ha
    simp [Tmp.buildPredictKwargs, ha.1, ha.2.1, ha.2.2]
  · intro ha
    simp only [List.mem_cons, List.not_mem_nil, or_false, not_or] at ha
    simp [Tmp.buildLoadKwargs, ha.1, ha.2]

theorem arg_token_validation_and_fallback_binding_witness :
    Tmp.validate_args ["model_path", "data"] =
      .error (.valueError (Tmp.invalidArgMsg "data")) ∧
    Tmp.validateFnSpec "predict" (some ⟨some "predict", Option.none, ["model_path", "data"]⟩) =
      .error (.valueError (Tmp.invalidArgMsg "data")) ∧
    Tmp.buildPredictKwargs ["data"] (.str "x") (.tag "M" []) = [("data", .str "x")] ∧
    Tmp.buildPredictKwargs ["bogus_arg"] (.str "x") (.tag "M" []) = [] ∧
    Tmp.buildLoadKwargs ["input_data"] "d/model.pkl" "d" = [] :=
  ⟨(arg_token_validation_and_fallback_binding "data" "predict" "predict" "d/model.pkl" "d"
      ["model_path"] [] (.str "x") (.tag "M" [])
      ⟨some "predict", Option.none, ["model_path", "data"]⟩).1
      (by decide) (by decide),
   (arg_token_validation_and_fallback_binding "data" "predict" "predict" "d/model.pkl" "d"
      ["model_path"] [] (.str "x") (.tag "M" [])
      ⟨some "predict", Option.none, ["model_path", "data"]⟩).2.1
      (by decide) (by decide) rfl rfl,
   (arg_token_validation_and_fallback_binding "data" "predict" "predict" "d/model.pkl" "d"
      ["model_path"] [] (.str "x") (.tag "M" [])
      ⟨some "predict", Option.none, ["model_path", "data"]⟩).2.2.1,
   (arg_token_validation_and_fallback_binding "bogus_arg" "predict" "predict" "d/model.pkl" "d"
      ["model_path"] [] (.str "x") (.tag "M" [])
      ⟨some "predict", Option.none, ["model_path", "data"]⟩).2.2.2.1 (by decide),
   (arg_token_validation_and_fallback_binding "input_data" "predict" "predict" "d/model.pkl" "d"
      ["model_path"] [] (.str "x") (.tag "M" [])
      ⟨some "predict", Option.none, ["model_path", "data"]⟩).2.2.2.2 (by decide)⟩

end ClaimC3
